import Mathlib

/-!
Verification of the search-service / ai-service core against its
natural-language specification.  The definitions below are a shallow
embedding of the Python sources:

* `src/backend/search-service/src/models/search_model.py`
* `src/backend/search-service/src/utils/query_builder.py`
* `src/backend/search-service/src/services/search_service.py`
* `src/backend/ai-service/src/services/openai_service.py`

Python floats are modelled as `ℚ` (no claim here depends on floating-point
rounding), Python ints and timestamps as `Int`/`Nat`, Python dicts as
association lists, and fallible code as `Except PyErr`.
-/

/-- Python exception kinds that the embedded code can raise. -/
inductive PyErr
  | attributeError (attr : String)
  | valueError (msg : String)
  | keyError (key : String)
  | validationError (field : String)
deriving DecidableEq, Repr

/-! ### search_model.py : SearchQuery (lines 27-85) -/

/-- `SearchQuery` (search_model.py lines 27-64).  Declared pydantic fields:
`query_text, platforms, tags, min_quality_score, from_, size, sort_options`.
`from_ : Nat` and the model-level bound `ge=0` coincide; `size` default 20.
`sort_options` is an opaque mapping never read by the code under test and is
modelled as an optional unit. -/
structure SearchQuery where
  query_text : String
  platforms : Option (List String) := none
  tags : Option (List String) := none
  min_quality_score : Option ℚ := none
  from_ : Nat := 0
  size : Nat := 20
  sort_options : Option Unit := none
deriving DecidableEq, Repr

/-- Python truthiness of an `Optional[List[str]]`: `None` and `[]` are falsy. -/
def listTruthy : Option (List String) → Bool
  | none => false
  | some l => !l.isEmpty

/-- Python truthiness of an `Optional[float]`: `None` and `0.0` are falsy. -/
def floatTruthy : Option ℚ → Bool
  | none => false
  | some q => q != 0

/-- ASCII model of Python `str.isalnum` on one character. -/
def pyAlnum (c : Char) : Bool := c.isAlphanum

/-- `validate_platforms` (search_model.py lines 66-74): only a truthy list is
checked against the allowed set `SIEM | EDR | NSM`. -/
def validate_platforms (v : Option (List String)) : Bool :=
  if listTruthy v then
    (v.getD []).all (fun p => p = "SIEM" || p = "EDR" || p = "NSM")
  else
    true

/-- `validate_tags` (search_model.py lines 76-85): a tag passes when every
non-alphanumeric character is `-` or `_` and its length is at most 50; the
check only runs on a truthy list. -/
def validate_tags (v : Option (List String)) : Bool :=
  if listTruthy v then
    (v.getD []).all (fun t =>
      t.data.all (fun c => pyAlnum c || c = '-' || c = '_') && t.length ≤ 50)
  else
    true

/-- Pydantic validation of `SearchQuery`: `query_text` length 3-500,
field validators for platforms and tags, `min_quality_score` in [0,1],
`size` in [1,100] (`from_ ≥ 0` holds by the `Nat` type). -/
def validSearchQuery (q : SearchQuery) : Bool :=
  3 ≤ q.query_text.length && q.query_text.length ≤ 500 &&
  validate_platforms q.platforms && validate_tags q.tags &&
  (match q.min_quality_score with
   | none => true
   | some s => 0 ≤ s && s ≤ 1) &&
  1 ≤ q.size && q.size ≤ 100

/-! ### query_builder.py : build_text_query (lines 79-138) -/

/-- Whitespace characters recognised by Python `str.split()` (ASCII model). -/
def isPySpace (c : Char) : Bool :=
  c = ' ' || c = '\t' || c = '\n' || c = '\r' ||
  c = Char.ofNat 11 || c = Char.ofNat 12

/-- Worker for `pySplit`: accumulates the current token (reversed). -/
def pySplitAux : List Char → List Char → List (List Char)
  | [], [] => []
  | [], cur => [cur.reverse]
  | c :: rest, cur =>
    if isPySpace c then
      if cur.isEmpty then pySplitAux rest []
      else cur.reverse :: pySplitAux rest []
    else pySplitAux rest (c :: cur)

/-- Python `str.split()` with no separator: splits on whitespace runs and
drops empty tokens. -/
def pySplit (s : String) : List String :=
  (pySplitAux s.data []).map List.asString

/-- The two multi-match modes used by `build_text_query`. -/
inductive QueryType
  | best_fields
  | most_fields
deriving DecidableEq, Repr

/-- The `MultiMatch` query assembled in query_builder.py lines 102-112.
`minimum_should_match` is the string constant `"2"`, kept as the number. -/
structure MultiMatchQ where
  query : String
  fields : List (String × ℚ)
  type : QueryType
  minimum_should_match : Nat
  operator_and : Bool
  fuzziness_auto : Bool
  prefix_length : Nat
  max_expansions : Nat
  tie_breaker : ℚ
deriving DecidableEq, Repr

/-- The two scoring functions of the `function_score` query
(query_builder.py lines 116-135). -/
inductive ScoreFn
  | expDecay (field : String) (scale_days : Nat) (decay : ℚ)
  | fieldValueFactor (field : String) (factor : ℚ) (modifier : String) (missing : ℚ)
deriving DecidableEq, Repr

/-- `function_score` wrapper (query_builder.py lines 114-138);
`score_mode="sum"`, `boost_mode="multiply"` recorded as booleans. -/
structure FunctionScoreQ where
  query : MultiMatchQ
  functions : List ScoreFn
  score_mode_sum : Bool
  boost_mode_multiply : Bool
deriving DecidableEq, Repr

/-- `build_text_query` (query_builder.py lines 79-138). -/
def build_text_query (query_text : String) : FunctionScoreQ :=
  let query_type : QueryType :=
    if (pySplit query_text).length ≤ 3 then .best_fields else .most_fields
  { query :=
      { query := query_text
        fields := [("name", 2), ("description", 3/2), ("content", 1), ("tags", 1)]
        type := query_type
        minimum_should_match := 2
        operator_and := true
        fuzziness_auto := true
        prefix_length := 2
        max_expansions := 50
        tie_breaker := 3/10 }
    functions :=
      [ .expDecay "updated_at" 30 (1/2),
        .fieldValueFactor "quality_score" (6/5) "sqrt" 1 ]
    score_mode_sum := true
    boost_mode_multiply := true }

/-! ### query_builder.py : build_filter_context (lines 140-172) -/

/-- The `_name` cache hints attached to filter clauses. -/
inductive ClauseName
  | platform_filter
  | tags_filter
  | quality_filter
deriving DecidableEq, Repr

/-- A compiled filter clause: `Terms` set membership or `Range` gte bound. -/
inductive FilterClause
  | terms (cacheHint : ClauseName) (field : String) (values : List String)
  | rangeGte (cacheHint : ClauseName) (field : String) (bound : ℚ)
deriving DecidableEq, Repr

/-- `build_filter_context` (query_builder.py lines 140-172): platform and tag
clauses are guarded by Python truthiness (`if platforms:` / `if tags:`), the
quality clause by `is not None`. -/
def build_filter_context (platforms tags : Option (List String))
    (min_quality_score : Option ℚ) : List FilterClause :=
  (if listTruthy platforms then
     [.terms .platform_filter "platform_type" (platforms.getD [])] else [])
  ++ (if listTruthy tags then
     [.terms .tags_filter "tags" (tags.getD [])] else [])
  ++ (match min_quality_score with
      | some q => [.rangeGte .quality_filter "quality_score" q]
      | none => [])

/-- The cache-hint name of a clause. -/
def clauseHint : FilterClause → ClauseName
  | .terms n _ _ => n
  | .rangeGte n _ _ => n

/-- Whether a filter list contains a clause with the given cache hint. -/
def hasClause (l : List FilterClause) (n : ClauseName) : Bool :=
  l.any (fun c => clauseHint c = n)

/-- The gate at query_builder.py line 46:
`any([search_params.platforms, search_params.tags, search_params.min_quality_score])`
under Python truthiness. -/
def filterGate (platforms tags : Option (List String)) (min_quality_score : Option ℚ) : Bool :=
  listTruthy platforms || listTruthy tags || floatTruthy min_quality_score

/-- The filter context attached to the search by build_search_query
lines 46-52: empty when the truthiness gate fails. -/
def attachedFilters (q : SearchQuery) : List FilterClause :=
  if filterGate q.platforms q.tags q.min_quality_score then
    build_filter_context q.platforms q.tags q.min_quality_score
  else
    []

/-! ### search_model.py : SearchHit (lines 87-111) -/

/-- `SearchHit` (search_model.py lines 87-106). -/
structure SearchHit where
  id : String
  name : String
  description : String
  platform_type : String
  score : ℚ
  highlights : List (String × List String) := []
  created_at : Int
  updated_at : Int
  metadata : List (String × String) := []
deriving DecidableEq, Repr

/-- The clamp performed by `SearchHit.normalize_score`
(search_model.py lines 108-111). -/
def normalize_score (v : ℚ) : ℚ := max 0 (min 1 v)

/-- Pydantic construction of a `SearchHit`.  The `Field(ge=0.0, le=1.0)`
bounds on `score` are checked before the v1-style `normalize_score`
validator runs, so an out-of-range score raises a validation error and the
clamp is only ever applied to values already inside `[0,1]`. -/
def mkSearchHit (id name description platform_type : String) (score : ℚ)
    (highlights : List (String × List String)) (created_at updated_at : Int)
    (metadata : List (String × String)) : Except PyErr SearchHit :=
  if score < 0 || 1 < score then
    .error (.validationError "score")
  else
    .ok { id, name, description, platform_type,
          score := normalize_score score,
          highlights, created_at, updated_at, metadata }

/-! ### search_model.py : SearchResult (lines 113-138) -/

/-- `SearchResult` (search_model.py lines 113-129); dict-valued fields are
association lists with integer values (only the key sets matter here). -/
structure SearchResult where
  hits : List SearchHit
  total : Int
  took_ms : Int
  max_score : ℚ
  aggregations : List (String × Int) := []
  performance_metrics : List (String × Int) := []
deriving DecidableEq, Repr

/-- The key set required by `SearchResult.validate_performance`
(search_model.py line 134). -/
def requiredMetrics : List String :=
  ["query_time_ms", "total_shards", "successful_shards"]

/-- Pydantic construction of a `SearchResult`.  Field constraints run in
declaration order (`total ≥ 0`, `took_ms ≥ 0`, `max_score ≥ 0`); the
`performance_metrics` argument is `none` when the caller omits the field,
in which case pydantic installs the `default_factory=dict` value and the
v1-style `validate_performance` validator does not run (validators are
skipped for defaults unless `always=True`, which the source does not set).
An explicitly passed record is checked for the three required keys
(search_model.py lines 131-138). -/
def mkSearchResult (hits : List SearchHit) (total took_ms : Int) (max_score : ℚ)
    (aggregations : List (String × Int))
    (performance_metrics : Option (List (String × Int))) : Except PyErr SearchResult :=
  if total < 0 then .error (.validationError "total")
  else if took_ms < 0 then .error (.validationError "took_ms")
  else if max_score < 0 then .error (.validationError "max_score")
  else
    match performance_metrics with
    | none =>
      .ok { hits, total, took_ms, max_score, aggregations, performance_metrics := [] }
    | some pm =>
      if requiredMetrics.all (fun k => pm.any (fun e => e.1 = k)) then
        .ok { hits, total, took_ms, max_score, aggregations, performance_metrics := pm }
      else
        .error (.valueError "Missing required performance metrics")

/-! ### query_builder.py : build_search_query (lines 27-77) -/

/-- Highlight configuration assembled by `build_highlight_config`
(query_builder.py lines 174-210), reduced to the per-field fragment
settings plus the fixed wrapper markup. -/
structure HighlightConfig where
  pre_tag : String := "<em>"
  post_tag : String := "</em>"
  order_by_score : Bool := true
  name_fragments : Nat := 1
  name_fragment_size : Nat := 100
  description_fragments : Nat := 2
  description_fragment_size : Nat := 150
  content_fragments : Nat := 3
  content_fragment_size : Nat := 150
  content_two_pass_fuzzy_fallback : Bool := true
deriving DecidableEq, Repr

/-- `build_highlight_config` (query_builder.py lines 174-210). -/
def build_highlight_config : HighlightConfig := {}

/-- The fully assembled search expression that `build_search_query` would
return (query_builder.py lines 27-77). -/
structure BuiltSearch where
  text_query : FunctionScoreQ
  filters : List FilterClause
  highlight : HighlightConfig
  from_ : Nat
  size : Nat
  profile : Bool
  source_fields : List String
deriving DecidableEq, Repr

/-- Integer-valued attribute lookup on a `SearchQuery`, as pydantic resolves
it: the model (search_model.py lines 27-64) declares `from_` and `size` as
its only integer fields; any other name raises `AttributeError`. -/
def SearchQuery.getIntAttr (q : SearchQuery) (attr : String) : Except PyErr Nat :=
  if attr = "from_" then .ok q.from_
  else if attr = "size" then .ok q.size
  else .error (.attributeError attr)

/-- `build_search_query` (query_builder.py lines 27-77).  Lines 62-66 read
`search_params.page_number` and `search_params.page_size`; `SearchQuery`
declares neither field, so the attribute access raises. -/
def build_search_query (q : SearchQuery) : Except PyErr BuiltSearch := do
  let text_query := build_text_query q.query_text
  let filters := attachedFilters q
  let highlight := build_highlight_config
  let page_number ← q.getIntAttr "page_number"
  let page_size ← q.getIntAttr "page_size"
  .ok { text_query, filters, highlight,
        from_ := (page_number - 1) * page_size,
        size := page_size,
        profile := true,
        source_fields :=
          ["id", "name", "description", "platform_type",
           "quality_score", "created_at", "updated_at", "tags"] }

/-! ### search_model.py : DetectionDocument.from_detection (lines 182-215) -/

/-- The nested `metadata` mapping of an incoming detection payload. -/
structure MetaPayload where
  mitre_tactics : Option (List String) := none
  mitre_techniques : Option (List String) := none
  severity : Option String := none
  confidence : Option ℚ := none
deriving DecidableEq, Repr

/-- An incoming detection dict (`detection_data` / `hit.to_dict()`); each
field is `none` when the key is absent. -/
structure DetectionPayload where
  id : Option String := none
  name : Option String := none
  description : Option String := none
  content : Option String := none
  platform_type : Option String := none
  tags : Option (List String) := none
  quality_score : Option ℚ := none
  created_at : Option Int := none
  updated_at : Option Int := none
  metadata : Option MetaPayload := none
deriving DecidableEq, Repr

/-- The Elasticsearch-side document built by `from_detection`. -/
structure DetectionDocument where
  id : String
  name : String
  description : String
  content : String
  platform_type : String
  tags : List String
  quality_score : ℚ
  created_at : Int
  updated_at : Int
  mitre_tactics : List String
  mitre_techniques : List String
  severity : String
  confidence : ℚ
deriving DecidableEq, Repr

/-- Python `d[k]`: raises `KeyError` when the key is absent. -/
def dictReq (o : Option α) (k : String) : Except PyErr α :=
  match o with
  | some v => .ok v
  | none => .error (.keyError k)

/-- `DetectionDocument.from_detection` (search_model.py lines 182-215):
`id, name, description, platform_type, created_at, updated_at` are required
subscript accesses; the rest use `.get` with defaults, the metadata block
defaulting severity to `medium` and confidence to `0.0`. -/
def from_detection (d : DetectionPayload) : Except PyErr DetectionDocument := do
  let id ← dictReq d.id "id"
  let name ← dictReq d.name "name"
  let description ← dictReq d.description "description"
  let platform_type ← dictReq d.platform_type "platform_type"
  let created_at ← dictReq d.created_at "created_at"
  let updated_at ← dictReq d.updated_at "updated_at"
  let md := d.metadata.getD {}
  .ok { id, name, description,
        content := d.content.getD "",
        platform_type,
        tags := d.tags.getD [],
        quality_score := d.quality_score.getD 0,
        created_at, updated_at,
        mitre_tactics := md.mitre_tactics.getD [],
        mitre_techniques := md.mitre_techniques.getD [],
        severity := md.severity.getD "medium",
        confidence := md.confidence.getD 0 }

/-! ### search_service.py : result assembly (lines 113-118) -/

/-- Modelled from the spec: `DetectionDocument.to_search_hit`, called at
search_service.py line 115, is defined nowhere under src.  Spec §4.4 says the
Result Assembler "maps each raw backend hit to a SearchHit" by copying the
indexed fields; we model it as that field copy, carrying the document's
(clamped) quality score as the initial relevance score.  Whatever initial
score it carries is irrelevant to the claims below: line 116 immediately
overwrites it. -/
def DetectionDocument.to_search_hit (d : DetectionDocument) : SearchHit :=
  { id := d.id, name := d.name, description := d.description,
    platform_type := d.platform_type,
    score := normalize_score d.quality_score,
    highlights := [],
    created_at := d.created_at, updated_at := d.updated_at,
    metadata := [] }

/-- One raw backend hit as the service reads it: the `_source` document
(`hit.to_dict()`), the backend relevance score `hit.meta.score`, and the
optional highlight mapping `hit.meta.highlight`. -/
structure BackendHit where
  source : DetectionPayload
  metaScore : ℚ
  metaHighlight : Option (List (String × List String)) := none
deriving DecidableEq, Repr

/-- search_service.py lines 113-118: build the hit from the source document,
then `search_hit.score = hit.meta.score`.  `SearchHit` does not enable
pydantic's `validate_assignment`, so this plain attribute assignment stores
the raw backend score without running `normalize_score` or the
`ge=0.0, le=1.0` bounds. -/
def processHit (h : BackendHit) : Except PyErr SearchHit := do
  let doc ← from_detection h.source
  let base := doc.to_search_hit
  .ok { base with
        score := h.metaScore,
        highlights := h.metaHighlight.getD [] }

/-! ### search_service.py : cache layer (lines 32, 241-257) -/

/-- `CACHE_TTL = 300` (search_service.py line 32). -/
def CACHE_TTL : Nat := 300

/-- The in-memory cache `_cache`: key, store timestamp (seconds), result. -/
def Cache := List (String × Nat × SearchResult)

/-- The `seconds` attribute of the Python `timedelta` `now - store`: the
day-wrapped seconds component, not the total elapsed seconds (valid for
`store ≤ now`). -/
def tdSeconds (store now : Nat) : Nat := (now - store) % 86400

/-- `SearchService._get_from_cache` (search_service.py lines 245-250): a hit
is returned while `(datetime.now() - cached['timestamp']).seconds < CACHE_TTL`. -/
def getFromCache (cache : Cache) (key : String) (now : Nat) : Option SearchResult :=
  match (cache : List (String × Nat × SearchResult)).find? (fun e => e.1 = key) with
  | none => none
  | some (_, store, r) => if tdSeconds store now < CACHE_TTL then some r else none

/-- `SearchService._add_to_cache` (search_service.py lines 252-257):
dict assignment, last writer wins for the key. -/
def addToCache (cache : Cache) (key : String) (now : Nat) (r : SearchResult) : Cache :=
  (key, now, r) :: (cache : List (String × Nat × SearchResult)).filter (fun e => e.1 ≠ key)

/-! ### search_service.py : write paths (lines 182-239, 259-262) -/

/-- Cluster health statuses reported by the backend. -/
inductive Health
  | green
  | yellow
  | red
deriving DecidableEq, Repr

/-- Backend operations observable from the service, in call order. -/
inductive EsOp
  | clusterHealth
  | indicesRefresh
  | indicesStats
  | docSave (id : String)
deriving DecidableEq, Repr

/-- The Elasticsearch backend as the write paths see it: the reported
cluster health and whether each administrative call succeeds. -/
structure EsBackend where
  health : Health
  saveOk : Bool := true
  refreshOk : Bool := true
  statsOk : Bool := true
deriving DecidableEq, Repr

/-- `SearchService.refresh_index` (search_service.py lines 182-208): checks
cluster health first and returns `False` on red without refreshing; any
exception from the later calls is caught and also yields `False`.  The
second component is the trace of backend calls made. -/
def refresh_index (es : EsBackend) : Bool × List EsOp :=
  if es.health = .red then (false, [.clusterHealth])
  else if !es.refreshOk then (false, [.clusterHealth, .indicesRefresh])
  else if !es.statsOk then (false, [.clusterHealth, .indicesRefresh, .indicesStats])
  else (true, [.clusterHealth, .indicesRefresh, .indicesStats])

/-- `SearchService.index_detection` (search_service.py lines 210-239) with
`_clear_related_caches` (lines 259-262, a full `cache.clear()`): converts the
payload (a failing conversion is caught and yields `False`), saves the
document unconditionally — no health check appears in the function — and
clears the whole cache only after a successful save.  Returns the status
flag, the resulting cache, and the trace of backend calls made. -/
def index_detection (es : EsBackend) (cache : Cache) (payload : DetectionPayload) :
    Bool × Cache × List EsOp :=
  match from_detection payload with
  | .error _ => (false, cache, [])
  | .ok doc =>
    if es.saveOk then (true, ([] : List (String × Nat × SearchResult)), [.docSave doc.id])
    else (false, cache, [.docSave doc.id])

/-! ### openai_service.py : circuit breaker (lines 46-79) -/

/-- Error taxonomy for wrapped backend calls: transient kinds (timeout,
connection error), a non-transient malformed request, and the
service-unavailable signal raised while the circuit is open. -/
inductive ApiErr
  | timeout
  | connectionError
  | malformedRequest
  | unavailable
deriving DecidableEq, Repr

/-- Whether an error is transient per spec §4.8 (timeouts, connection
errors). -/
def isTransient : ApiErr → Bool
  | .timeout => true
  | .connectionError => true
  | _ => false

/-- `CircuitBreaker.failure_threshold` (openai_service.py line 63). -/
def failure_threshold : Nat := 5

/-- `CircuitBreaker.reset_timeout` (openai_service.py line 64), seconds. -/
def reset_timeout : Nat := 60

/-- Circuit-breaker state (openai_service.py lines 60-68): consecutive
failure count and the time of the last recorded failure. -/
structure CircuitBreaker where
  failures : Nat := 0
  last_failure_time : Nat := 0
deriving DecidableEq, Repr

/-- The `is_open` property (openai_service.py lines 70-75), which also
mutates: when more than `reset_timeout` seconds have passed since the last
failure it zeroes the counter and reports closed; otherwise it reports open
exactly when the counter has reached the threshold.  Returns the reported
state and the state after the property read. -/
def CircuitBreaker.isOpenStep (cb : CircuitBreaker) (now : Nat) : Bool × CircuitBreaker :=
  if reset_timeout < now - cb.last_failure_time then
    (false, { cb with failures := 0 })
  else
    (failure_threshold ≤ cb.failures, cb)

/-- `CircuitBreaker.record_failure` (openai_service.py lines 77-79). -/
def CircuitBreaker.record_failure (cb : CircuitBreaker) (now : Nat) : CircuitBreaker :=
  { failures := cb.failures + 1, last_failure_time := now }

/-- The `circuit_breaker` decorator (openai_service.py lines 46-58) around
one backend call: when `is_open` the call is rejected with the
service-unavailable signal and the wrapped function is never invoked; when
closed the wrapped call runs, and a raising call records a failure before
re-raising.  Returns the outcome, the breaker state afterwards, and whether
the backend call was attempted. -/
def circuit_breaker_call (cb : CircuitBreaker) (now : Nat)
    (backend : Except ApiErr α) : Except ApiErr α × CircuitBreaker × Bool :=
  match cb.isOpenStep now with
  | (true, cbRead) => (.error .unavailable, cbRead, false)
  | (false, cbRead) =>
    match backend with
    | .ok a => (.ok a, cbRead, true)
    | .error e => (.error e, cbRead.record_failure now, true)

/-- The breaker state after five consecutive recorded failures at the given
times. -/
def afterFiveFailures (cb0 : CircuitBreaker) (t1 t2 t3 t4 t5 : Nat) : CircuitBreaker :=
  ((((cb0.record_failure t1).record_failure t2).record_failure
      t3).record_failure t4).record_failure t5

/-! ### openai_service.py : tenacity retry (lines 130-133, 220-223, 296-299) -/

/-- `wait_exponential(multiplier=1, min=4, max=10)` from tenacity: the wait
after the n-th failed attempt is `max(4, min(2^(n-1), 10))` seconds. -/
def wait_exponential (attempt : Nat) : ℚ :=
  max 4 (min ((2 : ℚ) ^ (attempt - 1)) 10)

/-- The `retry(stop=stop_after_attempt(3), ...)` wrapper.  No `retry=`
predicate is passed, so tenacity's default applies: every raised exception
is retried, whatever its kind.  `call n` is the outcome of the n-th attempt;
the result is the surfaced outcome (tenacity wraps the final exception in a
`RetryError`; we surface the underlying error, which is all the claims need)
together with the number of attempts made. -/
def tenacityCall (call : Nat → Except ApiErr α) : Except ApiErr α × Nat :=
  match call 1 with
  | .ok a => (.ok a, 1)
  | .error _ =>
    match call 2 with
    | .ok a => (.ok a, 2)
    | .error _ => (call 3, 3)

/-! ### Concrete fixtures used by the theorems below -/

/-- A well-formed incoming detection payload. -/
def samplePayload : DetectionPayload :=
  { id := some "det-1",
    name := some "Ransomware Detection",
    description := some "Detects ransomware activity on endpoints",
    content := some "rule body",
    platform_type := some "EDR",
    tags := some ["windows"],
    quality_score := some (4/5),
    created_at := some 100,
    updated_at := some 200 }

/-- A well-formed `SearchResult` as the assembler would produce it. -/
def sampleResult : SearchResult :=
  { hits := [],
    total := 3,
    took_ms := 12,
    max_score := 1,
    aggregations := [],
    performance_metrics :=
      [("query_time_ms", 12), ("total_shards", 3), ("successful_shards", 3)] }

/-- A one-entry cache whose entry was stored at time 0. -/
def sampleCache : Cache := [("search:k1", 0, sampleResult)]

/-- A validated query whose only filter input is an explicit quality score
of zero. -/
def qualityZeroQuery : SearchQuery :=
  { query_text := "ransomware detection windows", min_quality_score := some 0 }

/-- A validated query with an explicitly empty platform list, a tag list and
a zero quality score. -/
def emptyPlatformQuery : SearchQuery :=
  { query_text := "lateral movement",
    platforms := some [],
    tags := some ["windows", "threat-hunting"],
    min_quality_score := some 0 }

/-- A backend on a red cluster whose save call fails. -/
def redBackend : EsBackend :=
  { health := .red, saveOk := false, refreshOk := false, statsOk := false }

/-- A healthy backend whose save call fails. -/
def saveFailBackend : EsBackend := { health := .green, saveOk := false }

/-- A healthy backend where every call succeeds. -/
def healthyBackend : EsBackend := { health := .green }

/-- The document that `from_detection` builds from `samplePayload`. -/
def sampleDoc : DetectionDocument :=
  { id := "det-1",
    name := "Ransomware Detection",
    description := "Detects ransomware activity on endpoints",
    content := "rule body",
    platform_type := "EDR",
    tags := ["windows"],
    quality_score := 4/5,
    created_at := 100,
    updated_at := 200,
    mitre_tactics := [],
    mitre_techniques := [],
    severity := "medium",
    confidence := 0 }

/-! ### Theorems for the claims -/

/-- C9: for every query text, the constructed query expression selects
best-single-field matching exactly when the text has at most 3
whitespace-delimited tokens, and cumulative most-fields matching otherwise. -/
theorem C9_query_type_selection (q : String) :
    (build_text_query q).query.type =
      (if (pySplit q).length ≤ 3 then QueryType.best_fields else QueryType.most_fields) := rfl

/-- C6: for every `SearchQuery`, `build_search_query` raises
`AttributeError` while reading the pagination fields — the builder reads
`search_params.page_number` (and `page_size`), which the `SearchQuery` model
does not declare (its fields are `from_` and `size`) — so no built query
expression carrying the claimed pagination is ever produced. -/
theorem C6_pagination_attribute_error (q : SearchQuery) :
    build_search_query q = .error (.attributeError "page_number") := rfl

/-- C2 (code bug): an entry stored at time 0 is returned at 299s (fresh) and
missed at 300s, as the claim says — but `_get_from_cache` measures age with
`timedelta.seconds`, the day-wrapped component, so the same entry is served
again as a hit at 86400s (one full day later), although 86400 ≥ CACHE_TTL. -/
theorem C2_cache_ttl_day_wrap :
    getFromCache sampleCache "search:k1" 299 = some sampleResult ∧
    getFromCache sampleCache "search:k1" 300 = none ∧
    getFromCache sampleCache "search:k1" 86400 = some sampleResult ∧
    ¬ (86400 - 0 < CACHE_TTL) := by
  refine ⟨rfl, rfl, rfl, by decide⟩

/-- C1 (code bug): the score attached to a processed hit is the raw backend
score — the assignment on search_service.py line 116 bypasses pydantic
validation — so a backend score of 5/2 reaches the caller unclamped; and
constructing a `SearchHit` with that score directly raises a validation
error instead of clamping. -/
theorem C1_raw_backend_score_attached :
    ((processHit { source := samplePayload, metaScore := 5/2 }).toOption.map
        SearchHit.score) = some (5/2) ∧
    ¬ ((5/2 : ℚ) ≤ 1) ∧
    mkSearchHit "det-1" "Ransomware Detection" "desc" "EDR" (5/2) [] 100 200 []
      = .error (.validationError "score") := by
  refine ⟨rfl, by norm_num, by norm_num [mkSearchHit]⟩

/-- C8 counterexample: constructing a `SearchResult` with the
performance-metrics field omitted succeeds — pydantic installs the
`default_factory` empty record and the v1-style validator is skipped for
defaults — even though that record lacks all three required keys, so the
claim "construction fails for every such input" is false. -/
theorem C8_default_metrics_skip_validation :
    mkSearchResult [] 0 0 0 [] none =
      .ok { hits := [], total := 0, took_ms := 0, max_score := 0,
            aggregations := [], performance_metrics := [] } ∧
    requiredMetrics.all
      (fun k => (([] : List (String × Int)).any (fun e => e.1 = k))) = false := by
  refine ⟨by norm_num [mkSearchResult], rfl⟩

/-- C8 amended: whenever the performance-metrics record is explicitly
passed and lacks any of the three required keys, construction of the
`SearchResult` fails with the missing-metrics error. -/
theorem C8_explicit_metrics_missing_key_error
    (hits : List SearchHit) (total took_ms : Int) (max_score : ℚ)
    (aggregations : List (String × Int)) (pm : List (String × Int))
    (h1 : 0 ≤ total) (h2 : 0 ≤ took_ms) (h3 : 0 ≤ max_score)
    (hmiss : requiredMetrics.all (fun k => pm.any (fun e => e.1 = k)) = false) :
    mkSearchResult hits total took_ms max_score aggregations (some pm)
      = .error (.valueError "Missing required performance metrics") := by
  unfold mkSearchResult
  rw [if_neg (not_lt.mpr h1), if_neg (not_lt.mpr h2), if_neg (not_lt.mpr h3)]
  simp [hmiss]

/-- Witness for C8 amended at a concrete record missing two of the keys. -/
theorem C8_explicit_metrics_missing_key_error_witness :
    mkSearchResult [] 0 0 0 [] (some [("query_time_ms", 12)])
      = .error (.valueError "Missing required performance metrics") :=
  C8_explicit_metrics_missing_key_error [] 0 0 0 [] [("query_time_ms", 12)]
    (by norm_num) (by norm_num) (by norm_num) (by decide)

/-- C3 counterexample: a validated query whose only filter input is an
explicit `min_quality_score = 0.0` yields an empty attached filter context —
the truthiness gate at query_builder.py line 46 treats `0.0` as absent — so
the claimed "quality clause exactly when min_quality_score is present
(including the value 0.0)" fails. -/
theorem C3_quality_zero_emits_no_clause :
    validSearchQuery qualityZeroQuery = true ∧
    qualityZeroQuery.min_quality_score.isSome = true ∧
    attachedFilters qualityZeroQuery = [] := by
  refine ⟨by decide, rfl, rfl⟩

/-- C3 amended: for every validated query, the platform clause is attached
exactly when the platform list is non-empty and the tag clause exactly when
the tag list is non-empty (an explicitly empty list passes validation and is
treated as unfiltered, not rejected), while the quality clause is attached
exactly when `min_quality_score` is present AND the truthiness gate passes
(some list non-empty or the score non-zero). -/
theorem C3_filter_clause_presence (q : SearchQuery)
    (h : validSearchQuery q = true) :
    hasClause (attachedFilters q) .platform_filter = listTruthy q.platforms ∧
    hasClause (attachedFilters q) .tags_filter = listTruthy q.tags ∧
    hasClause (attachedFilters q) .quality_filter =
      (q.min_quality_score.isSome &&
        filterGate q.platforms q.tags q.min_quality_score) := by
  have L : ∀ (p t : Option (List String)) (m : Option ℚ),
      hasClause (if filterGate p t m then build_filter_context p t m else [])
          .platform_filter = listTruthy p ∧
      hasClause (if filterGate p t m then build_filter_context p t m else [])
          .tags_filter = listTruthy t ∧
      hasClause (if filterGate p t m then build_filter_context p t m else [])
          .quality_filter = (m.isSome && filterGate p t m) := by
    intro p t m
    cases m with
    | none =>
      cases hp : listTruthy p <;> cases ht : listTruthy t <;>
        simp [filterGate, build_filter_context, hasClause, clauseHint,
              floatTruthy, hp, ht]
    | some v =>
      cases hp : listTruthy p <;> cases ht : listTruthy t <;>
          cases hv : (v != 0) <;>
        simp [filterGate, build_filter_context, hasClause, clauseHint,
              floatTruthy, hp, ht, hv]
  simpa [attachedFilters] using L q.platforms q.tags q.min_quality_score

/-- Witness for C3 amended: a validated query with an explicitly empty
platform list (accepted, treated as unfiltered), a non-empty tag list and a
zero quality score. -/
theorem C3_filter_clause_presence_witness :
    hasClause (attachedFilters emptyPlatformQuery) .platform_filter
        = listTruthy emptyPlatformQuery.platforms ∧
    hasClause (attachedFilters emptyPlatformQuery) .tags_filter
        = listTruthy emptyPlatformQuery.tags ∧
    hasClause (attachedFilters emptyPlatformQuery) .quality_filter
        = (emptyPlatformQuery.min_quality_score.isSome &&
            filterGate emptyPlatformQuery.platforms emptyPlatformQuery.tags
              emptyPlatformQuery.min_quality_score) :=
  C3_filter_clause_presence emptyPlatformQuery (by decide)

/-- C4: once five consecutive failures have been recorded, a call made
within 60 seconds of the last failure is rejected with the
service-unavailable signal and the backend is not invoked; a call made
strictly more than 60 seconds after the last failure lazily closes the
circuit, reaches the backend, and surfaces the backend's own outcome. -/
theorem C4_circuit_breaker (cb0 : CircuitBreaker)
    (t1 t2 t3 t4 t5 nowBlocked nowReset : Nat) (b : Except ApiErr Unit)
    (hb : nowBlocked ≤ t5 + reset_timeout) (hr : t5 + reset_timeout < nowReset) :
    circuit_breaker_call (afterFiveFailures cb0 t1 t2 t3 t4 t5) nowBlocked b
        = (.error .unavailable, afterFiveFailures cb0 t1 t2 t3 t4 t5, false) ∧
    (circuit_breaker_call (afterFiveFailures cb0 t1 t2 t3 t4 t5) nowReset b).1 = b ∧
    (circuit_breaker_call (afterFiveFailures cb0 t1 t2 t3 t4 t5) nowReset b).2.2 = true := by
  set cb := afterFiveFailures cb0 t1 t2 t3 t4 t5 with hcb
  have hlast : cb.last_failure_time = t5 := rfl
  have h5 : cb.failures = cb0.failures + 5 := rfl
  have hb60 : nowBlocked ≤ t5 + 60 := hb
  have hr60 : t5 + 60 < nowReset := hr
  have hopenB : cb.isOpenStep nowBlocked = (true, cb) := by
    unfold CircuitBreaker.isOpenStep
    rw [hlast]
    rw [if_neg (by show ¬ (60 < nowBlocked - t5); omega)]
    have hdec : decide (failure_threshold ≤ cb.failures) = true :=
      decide_eq_true (by rw [h5]; show 5 ≤ cb0.failures + 5; omega)
    rw [hdec]
  have hopenR : cb.isOpenStep nowReset = (false, { cb with failures := 0 }) := by
    unfold CircuitBreaker.isOpenStep
    rw [hlast]
    rw [if_pos (by show 60 < nowReset - t5; omega)]
  refine ⟨?_, ?_, ?_⟩
  · unfold circuit_breaker_call
    rw [hopenB]
  · unfold circuit_breaker_call
    rw [hopenR]
    cases b <;> rfl
  · unfold circuit_breaker_call
    rw [hopenR]
    cases b <;> rfl

/-- Witness for C4: five failures recorded at times 1..5, one rejected call
at time 30 (within the window) and one passed-through call at time 100. -/
theorem C4_circuit_breaker_witness :
    circuit_breaker_call (afterFiveFailures {} 1 2 3 4 5) 30 (.ok ())
        = (.error .unavailable, afterFiveFailures {} 1 2 3 4 5, false) ∧
    (circuit_breaker_call (afterFiveFailures {} 1 2 3 4 5) 100 (.ok ())).1 = .ok () ∧
    (circuit_breaker_call (afterFiveFailures {} 1 2 3 4 5) 100 (.ok ())).2.2 = true :=
  C4_circuit_breaker {} 1 2 3 4 5 30 100 (.ok ()) (by decide) (by decide)

/-- C5 counterexample: a call that keeps raising the non-transient
malformed-request error is attempted 3 times by the tenacity wrapper — its
default predicate retries every exception — not surfaced after 1 attempt as
the claim's "never retried" requires. -/
theorem C5_nontransient_retried :
    tenacityCall (fun _ => (.error .malformedRequest : Except ApiErr Unit))
      = (.error .malformedRequest, 3) ∧
    isTransient .malformedRequest = false ∧
    (3 : Nat) ≠ 1 := by
  refine ⟨rfl, rfl, by decide⟩

/-- C5 amended: every wrapped backend call is attempted at most 3 times,
with exponential-backoff waits clamped into [4s, 10s]; the retry applies to
every raised exception (transient or not), errors surfacing only after
exhaustion. -/
theorem C5_retry_bounds {α : Type} (call : Nat → Except ApiErr α) :
    (tenacityCall call).2 ≤ 3 ∧
    4 ≤ wait_exponential 1 ∧ wait_exponential 1 ≤ 10 ∧
    4 ≤ wait_exponential 2 ∧ wait_exponential 2 ≤ 10 := by
  refine ⟨?_, by norm_num [wait_exponential], by norm_num [wait_exponential],
          by norm_num [wait_exponential], by norm_num [wait_exponential]⟩
  rcases h1 : call 1 with e1 | a1 <;> rcases h2 : call 2 with e2 | a2 <;>
    simp [tenacityCall, h1, h2]

/-- C7 counterexample: on a red cluster, `index_detection` still attempts
the backend document save (the write appears in the backend-call trace);
the claim's "returns an explicit failure without attempting the backend
write" is false for the indexing path. -/
theorem C7_red_cluster_write_attempted :
    redBackend.health = .red ∧
    (index_detection redBackend sampleCache samplePayload).1 = false ∧
    (index_detection redBackend sampleCache samplePayload).2.2
      = [.docSave "det-1"] ∧
    ([EsOp.docSave "det-1"] : List EsOp) ≠ [] := by
  refine ⟨rfl, rfl, rfl, by decide⟩

/-- C7 amended: only the refresh path consults the health guard — on a red
cluster `refresh_index` returns failure having made no refresh call — while
`index_detection` never consults health and attempts the document save
regardless of the red status. -/
theorem C7_health_guard_paths (es : EsBackend) (cache : Cache)
    (p : DetectionPayload) (doc : DetectionDocument)
    (hred : es.health = .red) (hp : from_detection p = .ok doc) :
    refresh_index es = (false, [.clusterHealth]) ∧
    (index_detection es cache p).2.2 = [.docSave doc.id] := by
  constructor
  · unfold refresh_index
    rw [if_pos hred]
  · unfold index_detection
    rw [hp]
    cases hs : es.saveOk <;> simp [hs]

/-- Witness for C7 amended on the concrete red backend and payload. -/
theorem C7_health_guard_paths_witness :
    refresh_index redBackend = (false, [.clusterHealth]) ∧
    (index_detection redBackend sampleCache samplePayload).2.2
      = [.docSave sampleDoc.id] :=
  C7_health_guard_paths redBackend sampleCache samplePayload sampleDoc rfl rfl

/-- C10: when the document conversion succeeds and the save fails with any
exception, `index_detection` returns `False` (no exception escapes: the
embedding is a total function) and leaves the cache untouched; the
full-cache clear happens only on the successful-save path. -/
theorem C10_save_failure_leaves_cache (esFail esGood : EsBackend)
    (cache : Cache) (p : DetectionPayload) (doc : DetectionDocument)
    (hp : from_detection p = .ok doc)
    (hfail : esFail.saveOk = false) (hok : esGood.saveOk = true) :
    index_detection esFail cache p = (false, cache, [.docSave doc.id]) ∧
    index_detection esGood cache p = (true, [], [.docSave doc.id]) := by
  constructor <;> unfold index_detection <;> rw [hp] <;> simp [hfail, hok]

/-- Witness for C10: a failing save leaves the one-entry cache in place;
a successful save clears it. -/
theorem C10_save_failure_leaves_cache_witness :
    index_detection saveFailBackend sampleCache samplePayload
      = (false, sampleCache, [.docSave sampleDoc.id]) ∧
    index_detection healthyBackend sampleCache samplePayload
      = (true, [], [.docSave sampleDoc.id]) :=
  C10_save_failure_leaves_cache saveFailBackend healthyBackend sampleCache
    samplePayload sampleDoc rfl rfl rfl
